import Mathlib

/-
Verification of the connection-detail normalization, connection-string
building, session lifecycle and source-YAML generation of the
jimvekemans/dbt-academy repository (src/python/src/*.py), via a shallow
embedding of the relevant Python functions into Lean.

Modelling conventions:
 * Python dicts are ordered association lists (`List (String × _)`), with an
   insert that updates an existing key in place (CPython dict semantics).
 * Python values occurring in connection details are modelled by `PVal`
   (strings, ints, and None).
 * Raised Python exceptions are modelled by `Except PyExc`.
 * Side effects (log records, console prints, session open/close, file
   writes, query executions) are modelled as an explicit event list.
 * `log` (src/python/src/log_manager.py, lines 155-171) emits one record and
   then RAISES `Exception(message)` whenever the level is CRITICAL or ERROR.
   The cosmetic `stylize_message` box-drawing applied to critical messages is
   elided; records carry the raw message.
-/

namespace DbtAcademy

/-- Python values appearing in connection-detail dictionaries. -/
inductive PVal where
  | str (s : String)
  | int (n : Int)
  | none
deriving DecidableEq

/-- Python exceptions raised by the embedded code. -/
inductive PyExc where
  | exception (msg : String)
  | attributeError (attr : String)
  | valueError (msg : String)
  | keyError (key : String)
deriving DecidableEq

/-- Observable side effects of the embedded code. -/
inductive Event where
  | logRec (level : String) (message : String)
  | consolePrint (message : String)
  | sessionOpened
  | sessionClosed
  | execQuery (query : String)
  | fileWrite (path : String)
deriving DecidableEq

/-- log_manager.log (log_manager.py lines 155-171): emit one record; when the
level is CRITICAL or ERROR, additionally raise `Exception(message)`. -/
def log (message : String) (level : String) : List Event × Option PyExc :=
  let critical : Bool := (level == "CRITICAL") || (level == "ERROR")
  ([Event.logRec level message],
   if critical then some (PyExc.exception message) else Option.none)

/-- Whether an event is an ERROR-level log record. -/
def isErrorLog : Event → Bool
  | Event.logRec lvl _ => lvl == "ERROR"
  | _ => false

/-- Number of ERROR-level log records in an event list. -/
def errorLogCount (evs : List Event) : Nat := evs.countP isErrorLog

/-- CPython dict insertion: update the value in place if the key is present,
otherwise append the new binding at the end. -/
def dictInsert {α : Type} (d : List (String × α)) (k : String) (v : α) :
    List (String × α) :=
  if d.any (fun p => p.1 == k) then
    d.map (fun p => if p.1 == k then (k, v) else p)
  else d ++ [(k, v)]

/-- CPython dict lookup (`d.get(k)`). -/
def dictLookup {α : Type} (d : List (String × α)) (k : String) : Option α :=
  (d.find? (fun p => p.1 == k)).map Prod.snd

/-- CPython `k in d`. -/
def dictContains {α : Type} (d : List (String × α)) (k : String) : Bool :=
  d.any (fun p => p.1 == k)

/-- `isOkB e` is true iff `e` carries a value rather than an exception. -/
def isOkB {α β : Type} : Except α β → Bool
  | Except.ok _ => true
  | Except.error _ => false

/-- `listIsPrefixOf n h`: the char list `n` is a prefix of `h`. -/
def listIsPrefixOf : List Char → List Char → Bool
  | [], _ => true
  | _ :: _, [] => false
  | a :: as, b :: bs => a == b && listIsPrefixOf as bs

/-- `listIsInfixOf n h`: the char list `n` occurs contiguously inside `h`.
Models the Python `in` operator on strings. -/
def listIsInfixOf : List Char → List Char → Bool
  | needle, [] => listIsPrefixOf needle []
  | needle, b :: t =>
    listIsPrefixOf needle (b :: t) || listIsInfixOf needle t

/-- Python `needle in hay` for strings (substring containment). -/
def strIn (needle hay : String) : Bool := listIsInfixOf needle.data hay.data

/-- Python `s.lower()`: lowercase each character (all keys involved are
ASCII, where `Char.toLower` agrees with Python). -/
def pyLower (s : String) : String := String.mk (s.data.map Char.toLower)

/-- Python `s.strip()`: drop whitespace from both ends. -/
def pyStrip (s : String) : String :=
  String.mk (((s.data.dropWhile Char.isWhitespace).reverse.dropWhile
    Char.isWhitespace).reverse)

/-- Python `s.endswith(t)`. -/
def pyEndsWith (s t : String) : Bool :=
  listIsPrefixOf t.data.reverse s.data.reverse

instance exceptDecEq {ε α : Type} [DecidableEq ε] [DecidableEq α] :
    DecidableEq (Except ε α)
  | Except.ok a, Except.ok b =>
    if h : a = b then isTrue (by rw [h]) else isFalse (by intro hc; cases hc; exact h rfl)
  | Except.ok _, Except.error _ => isFalse (by intro h; cases h)
  | Except.error _, Except.ok _ => isFalse (by intro h; cases h)
  | Except.error e, Except.error f =>
    if h : e = f then isTrue (by rw [h]) else isFalse (by intro hc; cases hc; exact h rfl)

/-
Key Normalizer — ConnectionManager.keyword_map and
ConnectionManager.standardize_connection_details
(connection_manager.py lines 68-80 and 300-383).
-/

/-- A value of the `keyword_map` dictionary.  In the source, most entries are
tuples of accepted aliases, but the entries for "role" and "token" are written
`("role")` / `("token")` which in Python are plain strings, not tuples. -/
inductive AliasVal where
  | tuple (alts : List String)
  | str (s : String)
deriving DecidableEq

/-- Python `key in alternative_key_set`: tuple membership for tuples, but
substring containment when the entry is a plain string. -/
def aliasContains (a : AliasVal) (key : String) : Bool :=
  match a with
  | AliasVal.tuple alts => alts.contains key
  | AliasVal.str s => strIn key s

/-- Python `alternative_key_set[0]`: first tuple element for tuples, but the
first character (as a one-character string) when the entry is a string. -/
def aliasFirst (a : AliasVal) : String :=
  match a with
  | AliasVal.tuple alts => alts.headD ""
  | AliasVal.str s => String.mk (s.data.take 1)

/-- ConnectionManager.keyword_map (connection_manager.py lines 68-80),
in source order (CPython dicts preserve insertion order). -/
def keyword_map : List (String × AliasVal) :=
  [("type", AliasVal.tuple ["type", "dbtype", "db_type"]),
   ("host", AliasVal.tuple ["host", "server", "hostname", "host_name", "url"]),
   ("port", AliasVal.tuple ["port", "portnum", "portnr", "portnumber"]),
   ("user", AliasVal.tuple ["user", "username", "user_name", "userid", "user_id"]),
   ("pass", AliasVal.tuple ["pass", "password", "pwd", "passwd"]),
   ("database", AliasVal.tuple ["database", "dbname", "db_name", "db", "database_name"]),
   ("schema", AliasVal.tuple ["schema", "schema_name"]),
   ("account", AliasVal.tuple ["account", "user_account", "acc"]),
   ("warehouse", AliasVal.tuple ["warehouse", "wh"]),
   ("role", AliasVal.str "role"),
   ("token", AliasVal.str "token")]

/-- The canonical key set (`keyword_map.keys()`). -/
def canonicalKeys : List String := keyword_map.map Prod.fst

/-- The standardization decision for a (lowercased) input key: `some k` when
the key is canonical or matches an alias set (in which case the binding is
stored under `k`), `none` when it is an "extra" key passed through unchanged.
Mirrors lines 321-337: the canonical check, then the first alias set (in
insertion order) whose `in`-test succeeds, taking that set's `[0]` element. -/
def alias_match (kl : String) : Option String :=
  if canonicalKeys.contains kl then some kl
  else (keyword_map.find? (fun q => aliasContains q.2 kl)).map
         (fun q => aliasFirst q.2)

/-- The output key under which an input key's value is stored
(lines 321-347): matched keys go to their standardized key, unmatched "extra"
keys are passed through unchanged. -/
def standardized_key (key : String) : String :=
  (alias_match (pyLower key)).getD key

/-- Whether an input key is an "extra" key (matches nothing, lines 339-349). -/
def is_extra_key (key : String) : Bool := (alias_match (pyLower key)).isNone

/-- The normalized dictionary built by the loop of lines 316-349. -/
def standardize_map (cd : List (String × PVal)) : List (String × PVal) :=
  cd.foldl (fun acc p => dictInsert acc (standardized_key p.1) p.2) []

/-- The INFO "Extra key" records logged for unmatched keys (line 349). -/
def extra_key_logs (cd : List (String × PVal)) : List Event :=
  (cd.filter (fun p => is_extra_key p.1)).map
    (fun p => Event.logRec "INFO" ("Extra key: " ++ p.1 ++ " in connection details."))

/-- Lines 358-364: required keys for the detected type.  The type detection
reads the ORIGINAL `connection_details` dict, and calls `.lower()` on its
"type" value, which raises AttributeError on a non-string value.  The Python
`base_keys` is a set; it is modelled as a list in insertion order
("type" first, then the keys added by `update`, in source order). -/
def base_keys (cd : List (String × PVal)) : Except PyExc (List String) :=
  match dictLookup cd "type" with
  | some (PVal.str s) =>
    if pyLower s == "snowflake" then
      Except.ok ["type", "account", "user", "pass", "database", "warehouse"]
    else Except.ok ["type", "host", "user", "pass"]
  | some _ => Except.error (PyExc.attributeError "lower")
  | Option.none => Except.ok ["type", "host", "user", "pass"]

/-- The required keys absent from the standardized dictionary (line 366). -/
def missing_keys (cd : List (String × PVal)) : Except PyExc (List String) :=
  (base_keys cd).map
    (fun bk => bk.filter (fun k => !(dictContains (standardize_map cd) k)))

/-- The message of line 369-374 for a missing required key. -/
def missing_key_msg (k : String) : String :=
  "Invalid config: Info for " ++ k ++ " not found in connection details."

/-- ConnectionManager.standardize_connection_details
(connection_manager.py lines 300-383).  Builds the standardized dict, logs an
INFO record per extra key, and validates required keys.  When a required key
is missing, the loop of lines 367-374 calls `log(..., level="ERROR")` at the
FIRST missing key; `log` raises, so later missing keys and the summary log of
lines 376-381 are never reached, and the function raises instead of
returning. -/
def standardize_connection_details (cd : List (String × PVal)) :
    List Event × Except PyExc (List (String × PVal)) :=
  let std := standardize_map cd
  let evs := extra_key_logs cd
  match missing_keys cd with
  | Except.error e => (evs, Except.error e)
  | Except.ok [] => (evs, Except.ok std)
  | Except.ok (k :: _) =>
    match log (missing_key_msg k) "ERROR" with
    | (ev1, some e) => (evs ++ ev1, Except.error e)
    | (ev1, Option.none) => (evs ++ ev1, Except.error (PyExc.exception (missing_key_msg k)))

/-
Connection Builder — SingleStoreConnectionManager.build_connection_string
(connection_manager.py lines 426-445).
-/

/-- Python `str()` of a PVal as used by `str.format`. -/
def pyStr : PVal → String
  | PVal.str s => s
  | PVal.int n => toString n
  | PVal.none => "None"

/-- Python `d[k]`: raises KeyError when the key is absent. -/
def getItem (cd : List (String × PVal)) (k : String) : Except PyExc PVal :=
  match dictLookup cd k with
  | some v => Except.ok v
  | Option.none => Except.error (PyExc.keyError k)

/-- SingleStoreConnectionManager.build_connection_string (lines 426-445):
`"mysql://{user}:{pass}@{host}:{port}/{database}"`, where the last segment is
the Python value `None` (formatted as the text "None") when no "database" key
is present. -/
def build_connection_string (cd : List (String × PVal)) : Except PyExc String := do
  let u ← getItem cd "user"
  let p ← getItem cd "pass"
  let h ← getItem cd "host"
  let port ← getItem cd "port"
  let db := if dictContains cd "database" then (dictLookup cd "database").getD PVal.none
            else PVal.none
  pure ("mysql://" ++ pyStr u ++ ":" ++ pyStr p ++ "@" ++ pyStr h ++ ":" ++
        pyStr port ++ "/" ++ pyStr db)

/-
Templating — dbtSecretManager.render_jinja (secret_manager.py lines 247-270).
The Jinja engine itself is external (the jinja2 library); its outcome on a
given input string is modelled as an oracle.
-/

/-- Outcome of the external Jinja engine on one input string. -/
inductive JinjaOutcome where
  | rendered (s : String)
  | templateError (msg : String)
  | undefinedError (msg : String)
deriving DecidableEq

/-- dbtSecretManager.render_jinja (secret_manager.py lines 247-270).
Non-strings are returned unchanged (lines 260-261).  The try-block reassigns
the local `jinja_input` on success; on TemplateSyntaxError or UndefinedError
the except-clauses call `log(..., level="ERROR")`, which emits a record and
raises — but the `finally: return jinja_input` returns the local's current
value and, per Python semantics, a return inside `finally` swallows any
in-flight exception.  The pending exception is therefore computed and then
discarded at the return. -/
def render_jinja (render : String → JinjaOutcome) (jinja_input : PVal) :
    List Event × PVal :=
  match jinja_input with
  | PVal.str s =>
    let tryRes : String × List Event × Option PyExc :=
      match render s with
      | JinjaOutcome.rendered r => (r, [], Option.none)
      | JinjaOutcome.templateError m =>
        let le := log ("Error in Jinja template: " ++ m) "ERROR"
        (s, le.1, le.2)
      | JinjaOutcome.undefinedError m =>
        let le := log ("Unknown error parsing Jinja template: " ++ m) "ERROR"
        (s, le.1, le.2)
    (tryRes.2.1, PVal.str tryRes.1)
  | v => ([], v)

/-
Session lifecycle — ConnectionManager (connection_manager.py lines 21-298).
The SQLAlchemy engine/session internals are external; what the claims are
about is the manager's own state (whether a session attribute exists, the
query histories, the hook configuration) and the emitted events.  The
database's behaviour on a statement is an oracle `DB`.
-/

/-- The attributes of a ConnectionManager instance relevant to the claims.
`hasCurrentSession` models `hasattr(self, "current_session")`. -/
structure CMState where
  hasCurrentSession : Bool
  sessionQueryHistory : List String
  allQueryHistory : List String
  preRunHooks : String
  postRunHooks : String
  shouldRunHooks : Bool
deriving DecidableEq

/-- A computation over a ConnectionManager: from a state, produce a value or
a raised exception, the state at that point (mutations before a raise
persist, as on a Python object), and the emitted events. -/
def M (α : Type) : Type := CMState → Except PyExc α × CMState × List Event

/-- Sequencing: on an exception the rest is skipped, but state and events
up to the raise are kept. -/
def mbind {α β : Type} (x : M α) (f : α → M β) : M β := fun s =>
  match x s with
  | (Except.ok a, s1, ev1) =>
    match f a s1 with
    | (r, s2, ev2) => (r, s2, ev1 ++ ev2)
  | (Except.error e, s1, ev1) => (Except.error e, s1, ev1)

def mpure {α : Type} (a : α) : M α := fun s => (Except.ok a, s, [])

def getS : M CMState := fun s => (Except.ok s, s, [])

def setS (s1 : CMState) : M Unit := fun _ => (Except.ok (), s1, [])

def emit (e : Event) : M Unit := fun s => (Except.ok (), s, [e])

def raise {α : Type} (e : PyExc) : M α := fun s => (Except.error e, s, [])

/-- Calling `log` from manager code: emit the record, raise if critical. -/
def mlog (message : String) (level : String) : M Unit := fun s =>
  match log message level with
  | (ev, Option.none) => (Except.ok (), s, ev)
  | (ev, some e) => (Except.error e, s, ev)

/-- The database oracle: a statement either yields a result dataframe
(represented abstractly by a string) or fails with an error message. -/
def DB : Type := String → Except String String

/-- The value `execute_query` places in its caller's hands for one query. -/
inductive QueryResult where
  | df (data : String)
  | errStr (msg : String)
deriving DecidableEq

/-- ConnectionManager.set_run_hooks string building (lines 115-120):
join `hook ++ ";"` with spaces over the hooks not already ending in ";". -/
def join_hooks (hooks : List String) : String :=
  String.intercalate " "
    ((hooks.filter (fun h => !(pyEndsWith (pyStrip h) ";"))).map (fun h => h ++ ";"))

/-- ConnectionManager.set_run_hooks (lines 102-121).  `should_run_hooks` is
the truthiness of `pre_run_hooks or post_run_hooks` (non-empty strings). -/
def set_run_hooks (s : CMState) (pre post : List String) : CMState :=
  let p := join_hooks pre
  let q := join_hooks post
  { s with preRunHooks := p, postRunHooks := q,
           shouldRunHooks := !(p == "") || !(q == "") }

/-- State of a freshly constructed manager (lines 82-100): hooks set from the
constructor arguments, no session yet, empty all-time history.  Engine
creation is elided (external to the claims). -/
def init_state (pre post : List String) : CMState :=
  set_run_hooks
    { hasCurrentSession := false, sessionQueryHistory := [],
      allQueryHistory := [], preRunHooks := "", postRunHooks := "",
      shouldRunHooks := false } pre post

/-- ConnectionManager.close_current_session (lines 267-278).  When hooks are
configured, line 273 evaluates `self.current_session.execute_query`, an
attribute the SQLAlchemy Session class does not have, so the lookup raises
AttributeError before anything else happens; `should_run_hooks = False`, the
close, the log and the history flush of lines 274-278 are all skipped. -/
def close_current_session : M Unit :=
  mbind getS (fun s =>
    if s.hasCurrentSession then
      mbind
        (if s.shouldRunHooks then
          mbind (raise (α := Unit) (PyExc.attributeError "execute_query")) (fun _ =>
            -- line 274, unreachable: the attribute lookup above raised
            mbind getS (fun s1 => setS { s1 with shouldRunHooks := false }))
        else mpure ())
        (fun _ =>
          -- self.current_session.close(); del self.current_session
          mbind (emit Event.sessionClosed) (fun _ =>
          mbind getS (fun s2 =>
          mbind (setS { s2 with hasCurrentSession := false }) (fun _ =>
          mbind (mlog "Closed and removed current database session." "INFO") (fun _ =>
          -- self.all_query_history.extend(self.session_query_history)
          mbind getS (fun s3 =>
            setS { s3 with
                   allQueryHistory := s3.allQueryHistory ++ s3.sessionQueryHistory }))))))
    else mpure ())

/-- The body of ConnectionManager.execute_query (lines 218-231), given that a
session exists.  On success: commit, DEBUG log, append to the per-session
history, return the dataframe.  On failure: pretty-print the failed query,
roll back, then `log` at WARN (when continue_on_error) or ERROR level — and
an ERROR-level log raises, so with continue_on_error=False the error path
never returns. -/
def execute_query_body (db : DB) (query : String) (continue_on_error : Bool) :
    M QueryResult :=
  mbind (emit (Event.execQuery query)) (fun _ =>
    match db query with
    | Except.ok data =>
      mbind (mlog ("Executed query: " ++ query) "DEBUG") (fun _ =>
      mbind getS (fun s =>
      mbind (setS { s with sessionQueryHistory := s.sessionQueryHistory ++ [query] })
        (fun _ => mpure (QueryResult.df data))))
    | Except.error e =>
      mbind (emit (Event.consolePrint query)) (fun _ =>
      -- self.current_session.rollback()
      mbind (mlog ("Error executing query: \n" ++ e)
               (if continue_on_error then "WARN" else "ERROR")) (fun _ =>
        mpure (QueryResult.errStr e))))

/-- ConnectionManager.start_new_session (lines 233-254).  The engine exists
(created in the constructor), so the first branch reduces to: close any
existing session, create a fresh one, reset the per-session history, run the
hooks (note the source runs post_run_hooks and then pre_run_hooks) through
execute_query — whose get_current_session is a no-op here since the session
was just created — and log. -/
def start_new_session (db : DB) : M Unit :=
  mbind getS (fun s =>
  mbind (if s.hasCurrentSession then close_current_session else mpure ()) (fun _ =>
  mbind (emit Event.sessionOpened) (fun _ =>
  mbind getS (fun s1 =>
  mbind (setS { s1 with hasCurrentSession := true, sessionQueryHistory := [] }) (fun _ =>
  mbind getS (fun s2 =>
  mbind
    (if s2.shouldRunHooks then
      mbind (execute_query_body db s2.postRunHooks true) (fun _ =>
      mbind getS (fun s3 =>
      mbind (execute_query_body db s3.preRunHooks true) (fun _ =>
      mbind (mlog "Executed pre-run hooks for new session." "INFO") (fun _ =>
      mbind getS (fun s4 => setS { s4 with shouldRunHooks := true })))))
    else mpure ())
    (fun _ => mlog "Started a new database session." "INFO")))))))

/-- ConnectionManager.get_current_session (lines 256-265). -/
def get_current_session (db : DB) : M Unit :=
  mbind getS (fun s =>
    if s.hasCurrentSession then mpure () else start_new_session db)

/-- ConnectionManager.execute_query (lines 205-231). -/
def execute_query (db : DB) (query : String) (continue_on_error : Bool) :
    M QueryResult :=
  mbind (get_current_session db) (fun _ =>
    execute_query_body db query continue_on_error)

/-- The `for query in queries` loop of batch_execute_queries (lines 293-296),
accumulating the results dict keyed by statement text. -/
def batch_loop (db : DB) (queries : List String) (continue_on_error : Bool)
    (results : List (String × QueryResult)) : M (List (String × QueryResult)) :=
  match queries with
  | [] => mpure results
  | q :: rest =>
    mbind (execute_query db q continue_on_error) (fun r =>
      batch_loop db rest continue_on_error (dictInsert results q r))

/-- ConnectionManager.batch_execute_queries (lines 280-298): open a session,
run the loop, close the session, return the dict.  There is no try/finally,
so an exception raised while executing a statement skips the close. -/
def batch_execute_queries (db : DB) (queries : List String)
    (continue_on_error : Bool) : M (List (String × QueryResult)) :=
  mbind (start_new_session db) (fun _ =>
  mbind (batch_loop db queries continue_on_error []) (fun results =>
  mbind close_current_session (fun _ => mpure results)))

/-- ConnectionManager.__enter__ (lines 123-132). -/
def cm_enter (db : DB) : M Unit :=
  mbind (mlog "Starting new session with connection manager..." "INFO") (fun _ =>
    start_new_session db)

/-- ConnectionManager.__exit__ (lines 134-140): log, close, return False. -/
def cm_exit : M Bool :=
  mbind (mlog "Closing session and exiting connection manager." "INFO") (fun _ =>
  mbind close_current_session (fun _ => mpure false))

/-- Whether an event is a session acquisition. -/
def isOpenEv : Event → Bool
  | Event.sessionOpened => true
  | _ => false

/-- Whether an event is a session release. -/
def isCloseEv : Event → Bool
  | Event.sessionClosed => true
  | _ => false

/-- Number of sessionOpened events. -/
def countOpens (evs : List Event) : Nat := evs.countP isOpenEv

/-- Number of sessionClosed events. -/
def countCloses (evs : List Event) : Nat := evs.countP isCloseEv

/-- The statements executed, in order. -/
def execTrace (evs : List Event) : List String :=
  evs.filterMap (fun e => match e with
    | Event.execQuery q => some q
    | _ => Option.none)

/-
Metadata-to-source generation — dbtSource (dbt_manager.py lines 85-211) and
dbtManager.refresh_source (lines 402-420).
-/

/-- One record of the metadata DataFrame, as seen through `row.get(...)`:
a field is `none` when the corresponding DataFrame column is absent.
The three required columns are always materialized by `row.get` as their
values when present (validation guarantees their presence). -/
structure SourceRow where
  schema_name : String
  table_name : String
  column_name : String
  is_nullable : Option Int := Option.none
  is_unique : Option Int := Option.none
  column_description : Option String := Option.none
  data_type : Option String := Option.none
  meta : Option String := Option.none
  column_contains_pii : Option String := Option.none
deriving DecidableEq

/-- The per-column descriptor dict built by lines 176-193; absent optional
entries are `none`. -/
structure ColInfo where
  name : String
  description : Option String
  data_type : Option String
  meta_contains_pii : Option (Option String)
  tests : Option (List String)
deriving DecidableEq

/-- Build one column descriptor from a row (dbt_manager.py lines 176-193):
description/data_type only when the column exists and is non-empty; the
`meta.contains_pii` entry whenever a non-empty `meta` column exists; a
`tests` list, "not_null" appended when `is_nullable == 1` and "unique"
appended when `is_unique == 1`, only created when at least one applies. -/
def make_col_info (row : SourceRow) : ColInfo :=
  { name := row.column_name
    description :=
      match row.column_description with
      | some d => if d.length > 0 then some d else Option.none
      | Option.none => Option.none
    data_type :=
      match row.data_type with
      | some d => if d.length > 0 then some d else Option.none
      | Option.none => Option.none
    meta_contains_pii :=
      match row.meta with
      | some m => if m.length > 0 then some row.column_contains_pii else Option.none
      | Option.none => Option.none
    tests :=
      if row.is_nullable = some 1 ∨ row.is_unique = some 1 then
        some ((if row.is_nullable = some 1 then ["not_null"] else []) ++
              (if row.is_unique = some 1 then ["unique"] else []))
      else Option.none }

/-- The `table_column_info` dict of lines 174-198: descriptors grouped by
table name, appending to an existing entry, insertion-ordered. -/
def table_column_info (rows : List SourceRow) : List (String × List ColInfo) :=
  rows.foldl (fun acc row =>
    let c := make_col_info row
    if acc.any (fun p => p.1 == row.table_name) then
      acc.map (fun p => if p.1 == row.table_name then (p.1, p.2 ++ [c]) else p)
    else acc ++ [(row.table_name, [c])]) []

/-- `self.source_info.table_name.unique()` (line 200): distinct table names
in order of first occurrence. -/
def unique_table_names (rows : List SourceRow) : List String :=
  rows.foldl (fun acc row =>
    if acc.contains row.table_name then acc else acc ++ [row.table_name]) []

/-- One entry of the `tables` list (lines 200-203); `columns` comes from
`table_column_info.get(table_name)`, hence the Option. -/
structure SourceTable where
  name : String
  columns : Option (List ColInfo)
deriving DecidableEq

/-- The single `sources` entry built at lines 165-172 and 200-203. -/
structure SourceDef where
  name : String
  database : String
  schema : String
  tables : List SourceTable
deriving DecidableEq

/-- The document dumped at lines 205-211. -/
structure SourcesYml where
  version : Int
  sources : List SourceDef
deriving DecidableEq

/-- dbtSource.generate_sources_yml (dbt_manager.py lines 153-211): the file
path written and the document content.  `source_schema = source_db`, and the
source's name and database are also `source_db`. -/
def generate_sources_yml (sources_dir : String) (rows : List SourceRow)
    (source_db : String) : String × SourcesYml :=
  let tci := table_column_info rows
  let tables := (unique_table_names rows).map (fun t =>
    { name := t, columns := (tci.find? (fun p => p.1 == t)).map Prod.snd : SourceTable })
  (sources_dir ++ "/" ++ ("sources_" ++ source_db ++ ".yml"),
   { version := 2,
     sources := [{ name := source_db, database := source_db, schema := source_db,
                   tables := tables }] })

/-- A pandas DataFrame, as far as validation and generation need it. -/
structure DataFrame where
  columns : List String
  rows : List SourceRow
deriving DecidableEq

/-- dbtSource.REQUIRED_TABLE_FIELDS (dbt_manager.py line 98). -/
def REQUIRED_TABLE_FIELDS : List String := ["schema_name", "table_name", "column_name"]

/-- dbtSource.validate_source_info (lines 127-151): the required fields must
be a subset of the DataFrame's columns. -/
def validate_source_info (df : DataFrame) : Bool :=
  REQUIRED_TABLE_FIELDS.all (fun f => df.columns.contains f)

/-- dbtSource.parse_source_info (lines 111-125): raises
`ValueError("Invalid source information provided.")` when validation fails. -/
def parse_source_info (df : DataFrame) : Except PyExc DataFrame :=
  if validate_source_info df then Except.ok df
  else Except.error (PyExc.valueError "Invalid source information provided.")

/-- dbtSource.__init__ (lines 100-109): parse (and validate) the metadata. -/
def dbtSource_init (df : DataFrame) : Except PyExc DataFrame :=
  parse_source_info df

/-- dbtManager.refresh_source (lines 402-420): construct a dbtSource over
`<models_dir>/sources` (validating the DataFrame — the constructor raises
before any file is touched) and then generate the YAML file; the write is
the fileWrite event. -/
def refresh_source (models_dir : String) (df : DataFrame) (source_name : String) :
    List Event × Except PyExc SourcesYml :=
  match dbtSource_init df with
  | Except.error e => ([], Except.error e)
  | Except.ok df1 =>
    let pd := generate_sources_yml (models_dir ++ "/sources") df1.rows source_name
    ([Event.fileWrite pd.1], Except.ok pd.2)

/-
Derived notions used to state the claims.
-/

/-- The value execute_query hands back for one statement when
continue_on_error is in force: the dataframe on success, `str(e)` on
failure. -/
def query_result (db : DB) (q : String) : QueryResult :=
  match db q with
  | Except.ok d => QueryResult.df d
  | Except.error e => QueryResult.errStr e

/-- The events emitted by one execute_query call made with an open session
and continue_on_error=True. -/
def exec_events (db : DB) (q : String) : List Event :=
  match db q with
  | Except.ok _ => [Event.execQuery q, Event.logRec "DEBUG" ("Executed query: " ++ q)]
  | Except.error e => [Event.execQuery q, Event.consolePrint q,
                       Event.logRec "WARN" ("Error executing query: \n" ++ e)]

/-- The events emitted by the batch loop over a list of statements. -/
def batch_events (db : DB) : List String → List Event
  | [] => []
  | q :: rest => exec_events db q ++ batch_events db rest

/-- The statements the oracle accepts (their texts enter the session
history). -/
def ok_queries (db : DB) (queries : List String) : List String :=
  queries.filter (fun q => isOkB (db q))

/-- The results dictionary batch execution returns: keyed by statement text,
a duplicate statement text overwriting the earlier result. -/
def expected_results (db : DB) (queries : List String) :
    List (String × QueryResult) :=
  queries.foldl (fun acc q => dictInsert acc q (query_result db q)) []

/-- An oracle on which every statement succeeds. -/
def dbAllOk : DB := fun _ => Except.ok "df"

/-- An oracle on which every statement fails. -/
def dbBoom : DB := fun _ => Except.error "boom"

/-- A freshly constructed manager with no hooks. -/
def initNoHooks : CMState := init_state [] []

/-- A manager constructed with a pre-run hook, holding an open session that
has executed one query. -/
def hooksOpenState : CMState :=
  { init_state ["SET autocommit = 1"] [] with
    hasCurrentSession := true, sessionQueryHistory := ["SELECT 1"] }

/-- The aliases listed in one keyword_map entry: the tuple elements for
tuple entries, the string itself for the plain-string entries. -/
def aliasStrings : AliasVal → List String
  | AliasVal.tuple alts => alts
  | AliasVal.str s => [s]

/-- All (canonical key, listed alias) pairs of keyword_map. -/
def aliasPairs : List (String × String) :=
  (keyword_map.map (fun q => (aliasStrings q.2).map (fun a => (q.1, a)))).flatten

/-- The proper substrings of "role" (none of which is a canonical key or a
member of an earlier alias tuple). -/
def roleProperSubstrings : List String :=
  ["", "r", "o", "l", "e", "ro", "ol", "le", "rol", "ole"]

/-- The proper substrings of "token" that match no earlier alias set (the
substrings "", "o" and "e" of "token" are also substrings of "role", which
is tried first, so they are excluded here). -/
def tokenProperSubstringsUnmatched : List String :=
  ["t", "k", "n", "to", "ok", "ke", "en", "tok", "oke", "ken", "toke", "oken"]

/-
Theorems.  Helper lemmas first, then one theorem per claim (with witnesses
and counterexamples where required).
-/

/-- Every (canonical, alias) pair of the keyword map standardizes the alias
to the canonical key — except that the string-valued "role"/"token" entries
still resolve to themselves here because the exact alias is also a full
match of the string. -/
theorem alias_pairs_match : ∀ p ∈ aliasPairs, alias_match p.2 = some p.1 := by
  decide

/-- Every proper substring of "role" standardizes to "r", and every proper
substring of "token" not matching an earlier alias set standardizes to
"t". -/
theorem alias_match_substrings :
    (∀ kl ∈ roleProperSubstrings, alias_match kl = some "r") ∧
    (∀ kl ∈ tokenProperSubstringsUnmatched, alias_match kl = some "t") := by
  decide

/-- C7: for normalized details {user "u", pass "p", host "h", port 5000,
database "d"} the shipped SingleStore dialect's builder returns exactly
"mysql://u:p@h:5000/d", and with no "database" key the trailing segment
after the final "/" is the literal text "None". -/
theorem build_connection_string_spec :
    build_connection_string
        [("user", PVal.str "u"), ("pass", PVal.str "p"), ("host", PVal.str "h"),
         ("port", PVal.int 5000), ("database", PVal.str "d")] =
      Except.ok "mysql://u:p@h:5000/d" ∧
    build_connection_string
        [("user", PVal.str "u"), ("pass", PVal.str "p"), ("host", PVal.str "h"),
         ("port", PVal.int 5000)] =
      Except.ok "mysql://u:p@h:5000/None" := by
  constructor <;> decide

/-- C10: an input key whose lowercased form is a proper substring of "role"
(resp. of "token", matching no earlier alias set) has its value stored under
the one-character key "r" (resp. "t") — the first character of the
plain-string alias entry — rather than being passed through as an extra
key. -/
theorem substring_keys_capture (key : String) (v : PVal) :
    (pyLower key ∈ roleProperSubstrings → standardize_map [(key, v)] = [("r", v)]) ∧
    (pyLower key ∈ tokenProperSubstringsUnmatched →
      standardize_map [(key, v)] = [("t", v)]) := by
  constructor <;> intro hk
  · have h2 : standardized_key key = "r" := by
      unfold standardized_key
      rw [alias_match_substrings.1 _ hk]
      rfl
    show [(standardized_key key, v)] = [("r", v)]
    rw [h2]
  · have h2 : standardized_key key = "t" := by
      unfold standardized_key
      rw [alias_match_substrings.2 _ hk]
      rfl
    show [(standardized_key key, v)] = [("t", v)]
    rw [h2]

theorem substring_keys_capture_witness :
    standardize_map [("ROL", PVal.str "x")] = [("r", PVal.str "x")] ∧
    standardize_map [("oke", PVal.str "y")] = [("t", PVal.str "y")] :=
  ⟨(substring_keys_capture "ROL" (PVal.str "x")).1 (by decide),
   (substring_keys_capture "oke" (PVal.str "y")).2 (by decide)⟩

/-- C8 counterexample: normalizing the mapping {"server": "x"} — a mapping
containing an alias entry — produces no output mapping at all: the
standardized dict lacks required keys, the validation loop logs an ERROR for
the first missing key, and `log` raises, so the normalizer raises instead of
returning a mapping containing {host: "x"}. -/
theorem alias_canonical_cex :
    standardize_connection_details [("server", PVal.str "x")] =
      ([Event.logRec "ERROR" (missing_key_msg "type")],
       Except.error (PyExc.exception (missing_key_msg "type"))) := by
  decide

/-- C8 (amended): the key-standardization step maps an entry whose key is
(case-insensitively) a listed alias k of canonical key c to an entry under
c, with k itself absent from the standardized dict whenever k differs from
c; the full normalizer only returns this dict when the required-key
validation passes (otherwise it raises, see the counterexample). -/
theorem alias_to_canonical (p : String × String) (hp : p ∈ aliasPairs)
    (key : String) (hk : pyLower key = p.2) (v : PVal) :
    standardize_map [(key, v)] = [(p.1, v)] ∧
    (key ≠ p.1 → dictContains (standardize_map [(key, v)]) key = false) := by
  have h2 : standardized_key key = p.1 := by
    unfold standardized_key
    rw [hk, alias_pairs_match p hp]
    rfl
  constructor
  · show [(standardized_key key, v)] = [(p.1, v)]
    rw [h2]
  · intro hne
    show dictContains [(standardized_key key, v)] key = false
    rw [h2]
    simp [dictContains]
    exact fun hcontra => hne hcontra.symm

theorem alias_to_canonical_witness :
    standardize_map [("SERVER", PVal.str "x")] = [("host", PVal.str "x")] ∧
    dictContains (standardize_map [("SERVER", PVal.str "x")]) "SERVER" = false :=
  ⟨(alias_to_canonical ("host", "server") (by decide) "SERVER" (by decide)
      (PVal.str "x")).1,
   (alias_to_canonical ("host", "server") (by decide) "SERVER" (by decide)
      (PVal.str "x")).2 (by decide)⟩

/-- C6: when the Jinja engine fails on an input string with a template
syntax error or an undefined-variable error, render_jinja emits one
ERROR-level record and returns the original unrendered input (the raise
inside `log` is swallowed by the `finally: return`, so no exception reaches
the caller — the function's type is exception-free); on success the rendered
string is returned. -/
theorem render_jinja_spec (render : String → JinjaOutcome) (s : String) :
    (∀ m, render s = JinjaOutcome.templateError m →
      render_jinja render (PVal.str s) =
        ([Event.logRec "ERROR" ("Error in Jinja template: " ++ m)], PVal.str s)) ∧
    (∀ m, render s = JinjaOutcome.undefinedError m →
      render_jinja render (PVal.str s) =
        ([Event.logRec "ERROR" ("Unknown error parsing Jinja template: " ++ m)],
         PVal.str s)) ∧
    (∀ r, render s = JinjaOutcome.rendered r →
      render_jinja render (PVal.str s) = ([], PVal.str r)) := by
  refine ⟨fun m hm => ?_, fun m hm => ?_, fun r hr => ?_⟩
  · simp [render_jinja, hm, log]
  · simp [render_jinja, hm, log]
  · simp [render_jinja, hr]

theorem render_jinja_spec_witness :
    render_jinja (fun _ => JinjaOutcome.templateError "bad block") (PVal.str "tmpl") =
      ([Event.logRec "ERROR" ("Error in Jinja template: " ++ "bad block")],
       PVal.str "tmpl") :=
  (render_jinja_spec (fun _ => JinjaOutcome.templateError "bad block") "tmpl").1
    "bad block" rfl

theorem errorLogCount_append (a b : List Event) :
    errorLogCount (a ++ b) = errorLogCount a + errorLogCount b := by
  simp [errorLogCount, List.countP_append]

/-- The "Extra key" records are INFO-level, never ERROR-level. -/
theorem errorLogCount_extra_key_logs (cd : List (String × PVal)) :
    errorLogCount (extra_key_logs cd) = 0 := by
  unfold errorLogCount extra_key_logs
  induction cd.filter (fun p => is_extra_key p.1) with
  | nil => rfl
  | cons a t ih => simp [List.countP_cons, isErrorLog, ih]

/-- C2 counterexample: for the input {"type": "snowflake"}, which misses all
five snowflake-required keys, the normalizer emits exactly ONE error record
(for the first missing key, not one per missing key plus a summary) and then
raises instead of returning the best-effort mapping. -/
theorem standardize_never_raises_cex :
    missing_keys [("type", PVal.str "snowflake")] =
      Except.ok ["account", "user", "pass", "database", "warehouse"] ∧
    isOkB (standardize_connection_details [("type", PVal.str "snowflake")]).2 = false ∧
    errorLogCount (standardize_connection_details [("type", PVal.str "snowflake")]).1 = 1 := by
  decide

/-- C2 (amended): when the required key set for the detected type is not a
subset of the normalized keys, the normalizer logs a single ERROR record for
the first missing key and raises Exception (ERROR-level logging raises), so
it emits neither one error per missing key nor a summary error and returns
nothing; when no required key is missing it returns the normalized mapping
and never emits an error. -/
theorem standardize_raise_behavior (cd : List (String × PVal)) :
    (∀ k ks, missing_keys cd = Except.ok (k :: ks) →
      standardize_connection_details cd =
        (extra_key_logs cd ++ [Event.logRec "ERROR" (missing_key_msg k)],
         Except.error (PyExc.exception (missing_key_msg k))) ∧
      errorLogCount (standardize_connection_details cd).1 = 1) ∧
    (missing_keys cd = Except.ok [] →
      standardize_connection_details cd =
        (extra_key_logs cd, Except.ok (standardize_map cd)) ∧
      errorLogCount (standardize_connection_details cd).1 = 0) := by
  constructor
  · intro k ks h
    have he : standardize_connection_details cd =
        (extra_key_logs cd ++ [Event.logRec "ERROR" (missing_key_msg k)],
         Except.error (PyExc.exception (missing_key_msg k))) := by
      unfold standardize_connection_details
      rw [h]
      simp [log]
    refine ⟨he, ?_⟩
    rw [he]
    show errorLogCount
        (extra_key_logs cd ++ [Event.logRec "ERROR" (missing_key_msg k)]) = 1
    rw [errorLogCount_append, errorLogCount_extra_key_logs]
    rfl
  · intro h
    have he : standardize_connection_details cd =
        (extra_key_logs cd, Except.ok (standardize_map cd)) := by
      unfold standardize_connection_details
      rw [h]
    refine ⟨he, ?_⟩
    rw [he]
    exact errorLogCount_extra_key_logs cd

theorem standardize_raise_behavior_witness :
    standardize_connection_details [("type", PVal.str "snowflake")] =
      (extra_key_logs [("type", PVal.str "snowflake")] ++
         [Event.logRec "ERROR" (missing_key_msg "account")],
       Except.error (PyExc.exception (missing_key_msg "account"))) :=
  ((standardize_raise_behavior [("type", PVal.str "snowflake")]).1 "account"
      ["user", "pass", "database", "warehouse"] (by decide)).1

/-- C1: the generator emits a {version 2, single-source} document whose
source name, database and schema all equal the provided source identifier,
written to `<dir>/sources_<name>.yml`; a column descriptor's tests contain
"not_null" exactly when the row's is_nullable == 1 and "unique" exactly when
is_unique == 1; and on the two concrete rows of the claim the output is one
table "t" with c1 tests=["not_null"] and c2 tests=["unique"] in
sources_landing.yml. -/
theorem generate_sources_spec :
    (∀ (dir : String) (rows : List SourceRow) (db : String),
      (generate_sources_yml dir rows db).2.version = 2 ∧
      (generate_sources_yml dir rows db).2.sources.map SourceDef.name = [db] ∧
      (generate_sources_yml dir rows db).2.sources.map SourceDef.database = [db] ∧
      (generate_sources_yml dir rows db).2.sources.map SourceDef.schema = [db] ∧
      (generate_sources_yml dir rows db).1 = dir ++ "/" ++ ("sources_" ++ db ++ ".yml")) ∧
    (∀ row : SourceRow,
      ("not_null" ∈ (make_col_info row).tests.getD [] ↔ row.is_nullable = some 1) ∧
      ("unique" ∈ (make_col_info row).tests.getD [] ↔ row.is_unique = some 1)) ∧
    generate_sources_yml "models/sources"
      [{ schema_name := "s", table_name := "t", column_name := "c1",
         is_nullable := some 1, is_unique := some 0 },
       { schema_name := "s", table_name := "t", column_name := "c2",
         is_nullable := some 0, is_unique := some 1 }] "landing" =
      ("models/sources/sources_landing.yml",
       { version := 2,
         sources := [{ name := "landing", database := "landing", schema := "landing",
                       tables := [{ name := "t",
                                    columns := some
                                      [{ name := "c1", description := Option.none,
                                         data_type := Option.none,
                                         meta_contains_pii := Option.none,
                                         tests := some ["not_null"] },
                                       { name := "c2", description := Option.none,
                                         data_type := Option.none,
                                         meta_contains_pii := Option.none,
                                         tests := some ["unique"] }] }] }] }) := by
  refine ⟨fun dir rows db => ⟨rfl, rfl, rfl, rfl, rfl⟩, fun row => ?_, by decide⟩
  constructor <;>
    · by_cases h1 : row.is_nullable = some 1 <;>
        by_cases h2 : row.is_unique = some 1 <;>
          simp [make_col_info, h1, h2]

/-- C4: when any of the required columns schema_name, table_name,
column_name is absent from the input DataFrame, source refresh fails
validation (the dbtSource constructor raises
ValueError "Invalid source information provided.") and no fileWrite event is
emitted: no file, not even a partial one, is touched. -/
theorem refresh_source_invalid_aborts (models_dir : String) (df : DataFrame)
    (name : String) (f : String) (hf : f ∈ REQUIRED_TABLE_FIELDS)
    (hmiss : ¬ f ∈ df.columns) :
    validate_source_info df = false ∧
    refresh_source models_dir df name =
      ([], Except.error (PyExc.valueError "Invalid source information provided.")) := by
  have hv : validate_source_info df = false := by
    cases hb : validate_source_info df
    · rfl
    · exfalso
      unfold validate_source_info at hb
      rw [List.all_eq_true] at hb
      exact hmiss (by simpa using hb f hf)
  refine ⟨hv, ?_⟩
  unfold refresh_source dbtSource_init parse_source_info
  rw [hv]
  simp

theorem refresh_source_invalid_aborts_witness :
    refresh_source "models"
        { columns := ["schema_name", "column_name"], rows := [] } "landing" =
      ([], Except.error (PyExc.valueError "Invalid source information provided.")) :=
  (refresh_source_invalid_aborts "models"
      { columns := ["schema_name", "column_name"], rows := [] } "landing"
      "table_name" (by decide) (by decide)).2

/-- C9: whenever hooks are configured (should_run_hooks is true) and a
session is open, close_current_session raises AttributeError — the
`execute_query` attribute lookup on the Session object fails — before
anything else happens: the session is not closed (the state is returned
unchanged, hasCurrentSession still true, no sessionClosed event) and the
per-session history is not flushed into the all-time log. -/
theorem close_with_hooks_raises (s : CMState) (hsess : s.hasCurrentSession = true)
    (hhooks : s.shouldRunHooks = true) :
    close_current_session s =
      (Except.error (PyExc.attributeError "execute_query"), s, []) := by
  simp [close_current_session, mbind, mpure, getS, setS, emit, raise, mlog, log,
        hsess, hhooks]

theorem close_with_hooks_raises_witness :
    hooksOpenState.shouldRunHooks = true ∧
    close_current_session hooksOpenState =
      (Except.error (PyExc.attributeError "execute_query"), hooksOpenState, []) :=
  ⟨by decide, close_with_hooks_raises hooksOpenState (by decide) (by decide)⟩

/-- C3: code-bug demonstration.  For a manager constructed with a pre-run
hook, holding an open session with one executed query, the context-manager
exit path (__exit__ → close_current_session) raises AttributeError: no
sessionClosed event is emitted, the session attribute survives, and the
per-session history ["SELECT 1"] is never flushed into the (empty) all-time
history — contradicting the claimed guaranteed release on every exit
path. -/
theorem cm_exit_hooks_leaves_session_open :
    cm_exit hooksOpenState =
      (Except.error (PyExc.attributeError "execute_query"), hooksOpenState,
       [Event.logRec "INFO" "Closing session and exiting connection manager."]) ∧
    countCloses (cm_exit hooksOpenState).2.2 = 0 ∧
    (cm_exit hooksOpenState).2.1.hasCurrentSession = true ∧
    (cm_exit hooksOpenState).2.1.allQueryHistory = [] ∧
    (cm_exit hooksOpenState).2.1.sessionQueryHistory = ["SELECT 1"] := by
  decide


/-- Rewriting step for sequencing: when the first computation succeeds. -/
theorem mbind_ok {α β : Type} {x : M α} {f : α → M β} {s : CMState} {a : α}
    {s1 : CMState} {ev1 : List Event} (h : x s = (Except.ok a, s1, ev1)) :
    mbind x f s = ((f a s1).1, (f a s1).2.1, ev1 ++ (f a s1).2.2) := by
  rw [mbind, h]

/-- One execute_query call with an open session, no hooks, and
continue_on_error left true: succeeds, returns `query_result`, appends the
statement to the per-session history only on success, emits
`exec_events`. -/
theorem execute_query_session_true (db : DB) (q : String) (s : CMState)
    (hs : s.hasCurrentSession = true) (hh : s.shouldRunHooks = false) :
    execute_query db q true s =
      (Except.ok (query_result db q),
       { s with sessionQueryHistory :=
           s.sessionQueryHistory ++ (if isOkB (db q) then [q] else []) },
       exec_events db q) := by
  obtain ⟨c1, c2, c3, c4, c5, c6⟩ := s
  simp only [CMState.hasCurrentSession] at hs
  simp only [CMState.shouldRunHooks] at hh
  subst hs
  subst hh
  cases hdb : db q with
  | ok d =>
    simp [execute_query, get_current_session, execute_query_body, exec_events,
          query_result, isOkB, mbind, mpure, getS, setS, emit, mlog, log, hdb]
  | error e =>
    simp [execute_query, get_current_session, execute_query_body, exec_events,
          query_result, isOkB, mbind, mpure, getS, setS, emit, mlog, log, hdb]

theorem countOpens_append (a b : List Event) :
    countOpens (a ++ b) = countOpens a + countOpens b := by
  simp [countOpens, List.countP_append]

theorem countCloses_append (a b : List Event) :
    countCloses (a ++ b) = countCloses a + countCloses b := by
  simp [countCloses, List.countP_append]

theorem execTrace_append (a b : List Event) :
    execTrace (a ++ b) = execTrace a ++ execTrace b := by
  simp [execTrace, List.filterMap_append]

theorem batch_events_counts (db : DB) (queries : List String) :
    countOpens (batch_events db queries) = 0 ∧
    countCloses (batch_events db queries) = 0 ∧
    execTrace (batch_events db queries) = queries := by
  induction queries with
  | nil => exact ⟨rfl, rfl, rfl⟩
  | cons q rest ih =>
    obtain ⟨ih1, ih2, ih3⟩ := ih
    have hstep : batch_events db (q :: rest) =
        exec_events db q ++ batch_events db rest := rfl
    have h1 : countOpens (exec_events db q) = 0 := by
      cases hdb : db q <;> simp [exec_events, hdb, countOpens, isOpenEv]
    have h2 : countCloses (exec_events db q) = 0 := by
      cases hdb : db q <;> simp [exec_events, hdb, countCloses, isCloseEv]
    have h3 : execTrace (exec_events db q) = [q] := by
      cases hdb : db q <;> simp [exec_events, hdb, execTrace]
    refine ⟨?_, ?_, ?_⟩
    · rw [hstep, countOpens_append, h1, ih1]
    · rw [hstep, countCloses_append, h2, ih2]
    · rw [hstep, execTrace_append, h3, ih3]
      rfl

/-- The batch loop with an open session and no hooks: never raises, folds
the results dict over the statements in order, appends the successful
statements to the per-session history, and emits exactly the per-statement
events (no session open or close). -/
theorem batch_loop_spec (db : DB) (queries : List String) :
    ∀ (acc : List (String × QueryResult)) (s : CMState),
      s.hasCurrentSession = true → s.shouldRunHooks = false →
      batch_loop db queries true acc s =
        (Except.ok (queries.foldl (fun a q => dictInsert a q (query_result db q)) acc),
         { s with sessionQueryHistory :=
             s.sessionQueryHistory ++ ok_queries db queries },
         batch_events db queries) := by
  induction queries with
  | nil =>
    intro acc s hs hh
    simp [batch_loop, mpure, ok_queries, batch_events]
  | cons q rest ih =>
    intro acc s hs hh
    have hexec := execute_query_session_true db q s hs hh
    have hnext := ih (dictInsert acc q (query_result db q))
      { s with sessionQueryHistory :=
          s.sessionQueryHistory ++ (if isOkB (db q) then [q] else []) }
      (by simp [hs]) (by simp [hh])
    have hone : batch_loop db (q :: rest) true acc s =
        mbind (execute_query db q true)
          (fun r => batch_loop db rest true (dictInsert acc q r)) s := rfl
    rw [hone, mbind_ok hexec]
    rw [hnext]
    cases hdb : db q <;>
      simp [batch_events, ok_queries, isOkB, hdb, List.filter_cons]

/-- start_new_session from a state with no session and no hooks. -/
theorem start_new_session_no_hooks (db : DB) (s : CMState)
    (hs : s.hasCurrentSession = false) (hh : s.shouldRunHooks = false) :
    start_new_session db s =
      (Except.ok (),
       { s with hasCurrentSession := true, sessionQueryHistory := [] },
       [Event.sessionOpened,
        Event.logRec "INFO" "Started a new database session."]) := by
  simp [start_new_session, mbind, mpure, getS, setS, emit, mlog, log, hs, hh]

/-- close_current_session with an open session and no hooks: closes, logs,
and flushes the per-session history into the all-time history. -/
theorem close_current_session_no_hooks (s : CMState)
    (hs : s.hasCurrentSession = true) (hh : s.shouldRunHooks = false) :
    close_current_session s =
      (Except.ok (),
       { s with hasCurrentSession := false,
                allQueryHistory := s.allQueryHistory ++ s.sessionQueryHistory },
       [Event.sessionClosed,
        Event.logRec "INFO" "Closed and removed current database session."]) := by
  simp [close_current_session, mbind, mpure, getS, setS, emit, raise, mlog, log,
        hs, hh]

/-- C5 (amended): with no hooks configured and continue_on_error left true
(its default), batch execution from a session-less state opens exactly one
session, executes the N statements in order against it, returns the dict
keyed by statement text in which a duplicate statement text overwrites the
earlier result, and closes the session exactly once — regardless of
statement count and of statement failures.  (With continue_on_error=False a
failing statement raises and the session is left open: see the
counterexample.) -/
theorem batch_execute_spec (db : DB) (queries : List String) (s0 : CMState)
    (hs : s0.hasCurrentSession = false) (hh : s0.shouldRunHooks = false) :
    batch_execute_queries db queries true s0 =
      (Except.ok (expected_results db queries),
       { s0 with hasCurrentSession := false,
                 sessionQueryHistory := ok_queries db queries,
                 allQueryHistory := s0.allQueryHistory ++ ok_queries db queries },
       [Event.sessionOpened,
        Event.logRec "INFO" "Started a new database session."] ++
         batch_events db queries ++
         [Event.sessionClosed,
          Event.logRec "INFO" "Closed and removed current database session."]) ∧
    countOpens (batch_execute_queries db queries true s0).2.2 = 1 ∧
    countCloses (batch_execute_queries db queries true s0).2.2 = 1 ∧
    execTrace (batch_execute_queries db queries true s0).2.2 = queries := by
  obtain ⟨c1, c2, c3, c4, c5, c6⟩ := s0
  simp only [CMState.hasCurrentSession] at hs
  simp only [CMState.shouldRunHooks] at hh
  subst hs
  subst hh
  have h1 := start_new_session_no_hooks db
    { hasCurrentSession := false, sessionQueryHistory := c2, allQueryHistory := c3,
      preRunHooks := c4, postRunHooks := c5, shouldRunHooks := false } rfl rfl
  have h2 := batch_loop_spec db queries []
    { hasCurrentSession := true, sessionQueryHistory := [], allQueryHistory := c3,
      preRunHooks := c4, postRunHooks := c5, shouldRunHooks := false } rfl rfl
  have h3 := close_current_session_no_hooks
    { hasCurrentSession := true, sessionQueryHistory := ok_queries db queries,
      allQueryHistory := c3, preRunHooks := c4, postRunHooks := c5,
      shouldRunHooks := false } rfl rfl
  obtain ⟨hb1, hb2, hb3⟩ := batch_events_counts db queries
  have key : batch_execute_queries db queries true
      { hasCurrentSession := false, sessionQueryHistory := c2, allQueryHistory := c3,
        preRunHooks := c4, postRunHooks := c5, shouldRunHooks := false } =
      (Except.ok (expected_results db queries),
       { hasCurrentSession := false, sessionQueryHistory := ok_queries db queries,
         allQueryHistory := c3 ++ ok_queries db queries, preRunHooks := c4,
         postRunHooks := c5, shouldRunHooks := false },
       [Event.sessionOpened,
        Event.logRec "INFO" "Started a new database session."] ++
         batch_events db queries ++
         [Event.sessionClosed,
          Event.logRec "INFO" "Closed and removed current database session."]) := by
    unfold batch_execute_queries
    rw [mbind_ok h1]
    simp only []
    rw [mbind_ok (by simpa using h2)]
    simp only []
    rw [mbind_ok (by simpa using h3)]
    simp [mpure, expected_results, List.append_assoc]
  refine ⟨by simpa using key, ?_, ?_, ?_⟩ <;> rw [key]
  · rw [countOpens_append, countOpens_append, hb1]
    rfl
  · rw [countCloses_append, countCloses_append, hb2]
    rfl
  · rw [execTrace_append, execTrace_append, hb3]
    simp [execTrace]

theorem batch_execute_spec_witness :
    batch_execute_queries dbAllOk ["SELECT 1", "SELECT 1"] true initNoHooks =
      (Except.ok (expected_results dbAllOk ["SELECT 1", "SELECT 1"]),
       { initNoHooks with
         hasCurrentSession := false,
         sessionQueryHistory := ok_queries dbAllOk ["SELECT 1", "SELECT 1"],
         allQueryHistory :=
           initNoHooks.allQueryHistory ++ ok_queries dbAllOk ["SELECT 1", "SELECT 1"] },
       [Event.sessionOpened,
        Event.logRec "INFO" "Started a new database session."] ++
         batch_events dbAllOk ["SELECT 1", "SELECT 1"] ++
         [Event.sessionClosed,
          Event.logRec "INFO" "Closed and removed current database session."]) ∧
    countOpens
      (batch_execute_queries dbAllOk ["SELECT 1", "SELECT 1"] true initNoHooks).2.2 = 1 ∧
    countCloses
      (batch_execute_queries dbAllOk ["SELECT 1", "SELECT 1"] true initNoHooks).2.2 = 1 ∧
    execTrace
      (batch_execute_queries dbAllOk ["SELECT 1", "SELECT 1"] true initNoHooks).2.2 =
      ["SELECT 1", "SELECT 1"] :=
  batch_execute_spec dbAllOk ["SELECT 1", "SELECT 1"] initNoHooks (by decide) (by decide)

/-- C5 counterexample: with continue_on_error=False, a failing statement
makes execute_query's ERROR-level log raise; batch_execute_queries has no
try/finally, so the close is skipped — the session is left open and no
sessionClosed event is emitted, refuting "always closes the session exactly
once ... regardless of statement count and of statement failures". -/
theorem batch_execute_cex :
    (batch_execute_queries dbBoom ["SELECT 1"] false initNoHooks).1 =
      Except.error (PyExc.exception ("Error executing query: \nboom")) ∧
    countCloses (batch_execute_queries dbBoom ["SELECT 1"] false initNoHooks).2.2 = 0 ∧
    (batch_execute_queries dbBoom ["SELECT 1"] false initNoHooks).2.1.hasCurrentSession =
      true := by
  decide

end DbtAcademy
